import Mathlib

/-!
Verification of the iTerm2 Go client library's connection-diagnostics and
tab-entity subsystem.

The Go source is shallowly embedded: OS-level facts (process liveness at
each probe, socket-file existence) and transport responses are passed in as
explicit environment values, and every function that the Go code implements
purely over those facts becomes a computable Lean function.  Error values
carry their category (the sentinel wrapped by fmt.Errorf with %w) together
with the full message text.
-/

/- ## String utilities mirroring strings.ToLower / strings.Contains -/

/-- ASCII lowering of a string, mirroring Go's strings.ToLower as used by the
classifier (all patterns involved are ASCII). -/
def lowerStr (s : String) : String := ⟨s.data.map Char.toLower⟩

/-- Prefix test on character lists. -/
def leadsWith : List Char → List Char → Bool
  | [], _ => true
  | _ :: _, [] => false
  | a :: as, b :: bs => a == b && leadsWith as bs

/-- Substring occurrence test on character lists. -/
def hasSub (pat : List Char) : List Char → Bool
  | [] => leadsWith pat []
  | c :: rest => leadsWith pat (c :: rest) || hasSub pat rest

/-- Substring test on strings, mirroring Go's strings.Contains s pat. -/
def contSub (s pat : String) : Bool := hasSub pat.data s.data

/- ## Error categories and sentinel texts (errors.go) -/

/-- Category of a classified error: the sentinel wrapped via %w, or `other`
for the passthrough case. -/
inductive ErrCategory
  | notRunning
  | pythonAPIDisabled
  | permissionDenied
  | other
deriving DecidableEq, Repr

/-- Text of the sentinel ErrITerm2NotRunning. -/
def errITerm2NotRunningMsg : String := "iTerm2 is not running"

/-- Text of the sentinel ErrPythonAPIDisabled. -/
def errPythonAPIDisabledMsg : String := "iTerm2 Python API is not enabled"

/-- Text of the sentinel ErrPermissionDenied. -/
def errPermissionDeniedMsg : String := "iTerm2 permission denied for this application"

/-- Classified error: category tag plus the full message text (the wrapped
message keeps the original error text as a suffix). -/
structure ClassifiedError where
  category : ErrCategory
  message : String
deriving DecidableEq, Repr

/- ## PrerequisiteChecker (errors.go, CheckPrerequisites) -/

/-- Environment for CheckPrerequisites: the OS facts observed at each probe.
`running1` is the result of the first isITerm2Running call, `running2` the
result of the TOCTOU re-check; `socketPathKnown` is whether getSocketPath
succeeds (home directory determinable) and `socketExists` whether os.Stat on
the socket path succeeds. -/
structure PrereqEnv where
  running1 : Bool
  socketPathKnown : Bool
  socketExists : Bool
  running2 : Bool
deriving DecidableEq, Repr

/-- Model of isPythonAPIEnabled: getSocketPath must succeed and the socket
file must exist. -/
def isPythonAPIEnabled (env : PrereqEnv) : Bool :=
  env.socketPathKnown && env.socketExists

/-- Result of CheckPrerequisites: nil, or a classified error. -/
inductive CheckResult
  | ok
  | fails (e : ClassifiedError)
deriving DecidableEq, Repr

/-- Model of CheckPrerequisites (errors.go lines 49-70): first check process
liveness, then the socket; on a missing socket re-check liveness before
blaming the Python API. -/
def checkPrerequisites (env : PrereqEnv) : CheckResult :=
  if !env.running1 then
    .fails ⟨.notRunning,
      errITerm2NotRunningMsg ++ ": iTerm2 process not found. Launch with: open -a iTerm"⟩
  else if !(isPythonAPIEnabled env) then
    if !env.running2 then
      .fails ⟨.notRunning,
        errITerm2NotRunningMsg ++ ": iTerm2 process not found. Launch with: open -a iTerm"⟩
    else if !env.socketPathKnown then
      .fails ⟨.pythonAPIDisabled,
        errPythonAPIDisabledMsg ++ ": could not determine socket path"⟩
    else
      .fails ⟨.pythonAPIDisabled,
        errPythonAPIDisabledMsg ++ ": socket not found. Enable in iTerm2 preferences"⟩
  else
    .ok

/- ## ErrorClassifier for connection-open failures (app.go, enhanceConnectionError) -/

/-- Model of isPermissionError (errors.go lines 73-80). -/
def isPermissionError (errText : String) : Bool :=
  let errMsg := lowerStr errText
  contSub errMsg "permission" ||
  contSub errMsg "denied" ||
  contSub errMsg "declined" ||
  contSub errMsg "not authorized" ||
  contSub errMsg "authorization"

/-- Model of isPythonAPIError (errors.go lines 83-87). -/
def isPythonAPIError (errText : String) : Bool :=
  let errMsg := lowerStr errText
  contSub errMsg "python api is not enabled" ||
  contSub errMsg "python api"

/-- Model of enhanceConnectionError (app.go lines 62-87).  `errText` is the
raw connection-open error text; `running` is the result of the
isITerm2Running re-check performed inside the first branch. -/
def enhanceConnectionError (errText : String) (running : Bool) : ClassifiedError :=
  let errMsg := lowerStr errText
  if contSub errMsg "no such file or directory" || contSub errMsg "connection refused" then
    if !running then
      ⟨.notRunning, errITerm2NotRunningMsg ++ ": " ++ errText⟩
    else
      ⟨.pythonAPIDisabled, errPythonAPIDisabledMsg ++ ": " ++ errText⟩
  else if isPythonAPIError errText then
    ⟨.pythonAPIDisabled, errPythonAPIDisabledMsg ++ ": " ++ errText⟩
  else if isPermissionError errText then
    ⟨.permissionDenied, errPermissionDeniedMsg ++ ": " ++ errText⟩
  else
    ⟨.other, errText⟩

/- ## Theorems for claims C1, C2, C3 -/

/-- C1: for every appName environment, if the process is not running at the
time of the (relevant) liveness check — either the first check fails, or the
socket check fails and the TOCTOU re-check finds the process gone —
CheckPrerequisites returns the NotRunning category, never EndpointDisabled,
regardless of the socket-file state. -/
theorem checkPrerequisites_notRunning (env : PrereqEnv)
    (h : env.running1 = false ∨ (isPythonAPIEnabled env = false ∧ env.running2 = false)) :
    checkPrerequisites env = .fails ⟨.notRunning,
      errITerm2NotRunningMsg ++ ": iTerm2 process not found. Launch with: open -a iTerm"⟩ := by
  rcases h with h | ⟨h1, h2⟩
  · simp [checkPrerequisites, h]
  · by_cases hr : env.running1 <;> simp [checkPrerequisites, hr, h1, h2]

/-- Witness for C1: the process absent at the first check (socket present),
and the process exiting between the socket check and the re-check, both
yield NotRunning. -/
theorem checkPrerequisites_notRunning_witness :
    checkPrerequisites ⟨false, true, true, true⟩ = .fails ⟨.notRunning,
      errITerm2NotRunningMsg ++ ": iTerm2 process not found. Launch with: open -a iTerm"⟩ ∧
    checkPrerequisites ⟨true, true, false, false⟩ = .fails ⟨.notRunning,
      errITerm2NotRunningMsg ++ ": iTerm2 process not found. Launch with: open -a iTerm"⟩ :=
  ⟨checkPrerequisites_notRunning ⟨false, true, true, true⟩ (Or.inl rfl),
   checkPrerequisites_notRunning ⟨true, true, false, false⟩ (Or.inr ⟨rfl, rfl⟩)⟩

/-- C2: for every raw connection-open error whose lower-cased text contains
"no such file or directory" or "connection refused", the classifier returns
NotRunning wrapping the original text when the re-run liveness check reports
not running, and EndpointDisabled (Python API disabled) wrapping the
original text when it reports running. -/
theorem enhanceConnectionError_socketFailure (errText : String) (running : Bool)
    (h : contSub (lowerStr errText) "no such file or directory" = true ∨
         contSub (lowerStr errText) "connection refused" = true) :
    enhanceConnectionError errText running =
      if running then
        ⟨.pythonAPIDisabled, errPythonAPIDisabledMsg ++ ": " ++ errText⟩
      else
        ⟨.notRunning, errITerm2NotRunningMsg ++ ": " ++ errText⟩ := by
  rcases h with h | h <;> cases running <;> simp [enhanceConnectionError, h]

/-- Witness for C2 at the raw text of a failed unix-socket dial, for both
liveness outcomes. -/
theorem enhanceConnectionError_socketFailure_witness :
    enhanceConnectionError "dial unix: connect: No such file or directory" false =
      ⟨.notRunning, errITerm2NotRunningMsg ++ ": dial unix: connect: No such file or directory"⟩ ∧
    enhanceConnectionError "dial unix: connect: No such file or directory" true =
      ⟨.pythonAPIDisabled, errPythonAPIDisabledMsg ++ ": dial unix: connect: No such file or directory"⟩ :=
  ⟨enhanceConnectionError_socketFailure "dial unix: connect: No such file or directory" false
     (Or.inl (by decide)),
   enhanceConnectionError_socketFailure "dial unix: connect: No such file or directory" true
     (Or.inl (by decide))⟩

/-- C3 counterexample: a raw error text containing "declined" that also
contains "connection refused" is classified by the earlier socket-failure
branch, not as PermissionDenied — the claim "PermissionDenied regardless of
process state for every text containing declined" is false as stated. -/
theorem enhanceConnectionError_declined_counterexample :
    contSub (lowerStr "connection refused: user declined") "declined" = true ∧
    (enhanceConnectionError "connection refused: user declined" true).category ≠
      ErrCategory.permissionDenied := by
  exact ⟨by decide, by decide⟩

/-- C3 amended: for every raw connection-open error whose lower-cased text
contains "declined" or "not authorized", and which matches neither the
socket-failure patterns ("no such file or directory", "connection refused")
nor the Python-API patterns, the classifier returns PermissionDenied
regardless of the process-liveness state. -/
theorem enhanceConnectionError_declined (errText : String) (running : Bool)
    (hsock : (contSub (lowerStr errText) "no such file or directory" ||
              contSub (lowerStr errText) "connection refused") = false)
    (hapi : isPythonAPIError errText = false)
    (hd : contSub (lowerStr errText) "declined" = true ∨
          contSub (lowerStr errText) "not authorized" = true) :
    enhanceConnectionError errText running =
      ⟨.permissionDenied, errPermissionDeniedMsg ++ ": " ++ errText⟩ := by
  have hperm : isPermissionError errText = true := by
    rcases hd with h | h <;> simp [isPermissionError, h]
  simp [enhanceConnectionError, hsock, hapi, hperm]

/-- Witness for amended C3: a "user declined" text is PermissionDenied under
both liveness outcomes. -/
theorem enhanceConnectionError_declined_witness :
    enhanceConnectionError "user declined the session request" true =
      ⟨.permissionDenied, errPermissionDeniedMsg ++ ": user declined the session request"⟩ ∧
    enhanceConnectionError "user declined the session request" false =
      ⟨.permissionDenied, errPermissionDeniedMsg ++ ": user declined the session request"⟩ :=
  ⟨enhanceConnectionError_declined "user declined the session request" true
     (by decide) (by decide) (Or.inl (by decide)),
   enhanceConnectionError_declined "user declined the session request" false
     (by decide) (by decide) (Or.inl (by decide))⟩

/- ## Bulk session-listing response model (api.ListSessionsResponse) -/

/-- One link of a tab's root split-tree node, as consumed by tab.ListSessions:
the code reads link.GetSession().GetUniqueIdentifier() from each link. -/
structure SessLink where
  sessionId : String
deriving DecidableEq, Repr

/-- One tab of a window inside a ListSessionsResponse. -/
structure TabData where
  tabId : String
  links : List SessLink
deriving DecidableEq, Repr

/-- One window inside a ListSessionsResponse. -/
structure WindowData where
  windowId : String
  tabs : List TabData
deriving DecidableEq, Repr

/- ## Tab.ListSessions (tab.go lines 146-174) -/

/-- Inner loop over a matching tab's root links: each link contributes one
session identifier, in order. -/
def linksSessions : List SessLink → List String
  | [] => []
  | l :: rest => l.sessionId :: linksSessions rest

/-- Middle loop over a window's tabs: tabs whose id differs from the tab's
own id are skipped (continue). -/
def tabsSessions (tabID : String) : List TabData → List String
  | [] => []
  | t :: rest =>
    (if t.tabId == tabID then linksSessions t.links else []) ++ tabsSessions tabID rest

/-- Outer loop of tab.ListSessions over the windows of the bulk listing:
windows whose id differs from the tab's parent window id are skipped. -/
def tabListSessions (windowID tabID : String) : List WindowData → List String
  | [] => []
  | w :: rest =>
    (if w.windowId == windowID then tabsSessions tabID w.tabs else []) ++
      tabListSessions windowID tabID rest

/-- Model of the full Tab.ListSessions call: a transport failure is wrapped;
otherwise the filtering walk above runs over the response. -/
def tabListSessionsCall (windowID tabID : String)
    (listResp : Except String (List WindowData)) : Except String (List String) :=
  match listResp with
  | .error e => .error ("error listing sessions for tab \"" ++ tabID ++ "\": " ++ e)
  | .ok ws => .ok (tabListSessions windowID tabID ws)

/- ## Specification-side formulation of the Tab to Session resolution -/

/-- One session occurrence of the bulk listing, annotated with its enclosing
window and tab identifiers.  Modelled from the spec: "match by enclosing
window id, then by enclosing tab id, then flatten the nested pane-tree links
into a flat ordered sequence". -/
structure SessEntry where
  win : String
  tb : String
  sid : String
deriving DecidableEq, Repr

/-- Every session occurrence of the whole listing, annotated, in the
server's traversal order. -/
def allSessionEntries (ws : List WindowData) : List SessEntry :=
  ws.flatMap (fun w =>
    w.tabs.flatMap (fun t =>
      t.links.map (fun l => SessEntry.mk w.windowId t.tabId l.sessionId)))

/-- Specification-side session resolution: filter the flattened annotated
listing by enclosing window id and enclosing tab id, keep the order. -/
def specTabSessions (windowID tabID : String) (ws : List WindowData) : List String :=
  ((allSessionEntries ws).filter (fun e => e.win == windowID && e.tb == tabID)).map
    (fun e => e.sid)

/- ## Tab.SetColor (tab.go lines 182-225) and Tab.Close (tab.go lines 228-253) -/

/-- Channel normalization used by SetColor: float64(c)/255.0, modelled
exactly over the rationals. -/
def chan (c : Nat) : ℚ := (c : ℚ) / 255

/-- Value of one profile-property assignment: the structured color JSON is
modelled by its three channel values, the "Use Tab Color" value by its
literal string. -/
inductive AValue
  | colorVal (red green blue : ℚ)
  | strVal (s : String)
deriving DecidableEq, Repr

/-- One assignment of a SetProfilePropertyRequest. -/
structure Assignment where
  key : String
  value : AValue
deriving DecidableEq, Repr

/-- A SetProfilePropertyRequest targeted at a session. -/
structure ProfileReq where
  sessionId : String
  assignments : List Assignment
deriving DecidableEq, Repr

/-- Status of a SetProfilePropertyResponse.  The proto enum is not part of
this repository; it is modelled abstractly as OK plus a representative
non-OK value — SetColor never reads it. -/
inductive ProfileStatus
  | statusOK
  | statusErr
deriving DecidableEq, Repr

/-- Environment for one SetColor run: the transport outcome of the
session-listing exchange and of the color-assignment exchange. -/
structure SetColorEnv where
  listResp : Except String (List WindowData)
  profileResp : Except String ProfileStatus
deriving Repr

/-- Outcome of SetColor: the color-assignment requests issued on the
connection, plus the returned error value. -/
structure SetColorOutcome where
  sent : List ProfileReq
  result : Except String Unit
deriving Repr

/-- Model of Tab.SetColor: resolve the session list, fail when empty, else
issue one SetProfilePropertyRequest at the first session carrying the two
assignments; only a transport error on that exchange is a failure (the
response status is not inspected by the code). -/
def tabSetColor (windowID tabID : String) (r g b : Nat) (env : SetColorEnv) :
    SetColorOutcome :=
  match tabListSessionsCall windowID tabID env.listResp with
  | .error e => ⟨[], .error ("could not list sessions for tab \"" ++ tabID ++ "\": " ++ e)⟩
  | .ok sessions =>
    match sessions with
    | [] => ⟨[], .error ("tab \"" ++ tabID ++ "\" has no sessions")⟩
    | s0 :: _ =>
      let req : ProfileReq :=
        ⟨s0, [⟨"Tab Color", .colorVal (chan r) (chan g) (chan b)⟩,
              ⟨"Use Tab Color", .strVal "true"⟩]⟩
      match env.profileResp with
      | .error e => ⟨[req], .error ("could not set color for tab \"" ++ tabID ++ "\": " ++ e)⟩
      | .ok _ => ⟨[req], .ok ()⟩

/-- Status of a CloseResponse entry (proto names). -/
inductive CloseStatus
  | okStatus
  | notFound
  | userDeclined
deriving DecidableEq, Repr

/-- Name of a close status as printed by %v on the proto enum. -/
def closeStatusStr : CloseStatus → String
  | .okStatus => "OK"
  | .notFound => "NOT_FOUND"
  | .userDeclined => "USER_DECLINED"

/-- The close request issued by Tab.Close: one tab id, force false. -/
structure CloseReq where
  tabIds : List String
  force : Bool
deriving DecidableEq, Repr

/-- Request construction of Tab.Close: names exactly the tab's identifier,
with the force flag false. -/
def tabCloseRequest (tabID : String) : CloseReq := ⟨[tabID], false⟩

/-- Model of Tab.Close's response handling: a transport error is wrapped;
otherwise, when the statuses list is non-empty, only its first entry is
inspected, and a non-OK first entry is a failure naming the status. -/
def tabClose (tabID : String) (resp : Except String (List CloseStatus)) :
    Except String Unit :=
  match resp with
  | .error e => .error ("could not close tab \"" ++ tabID ++ "\": " ++ e)
  | .ok statuses =>
    match statuses with
    | [] => .ok ()
    | s :: _ =>
      if s = .okStatus then .ok ()
      else .error ("failed to close tab \"" ++ tabID ++ "\": status " ++ closeStatusStr s)

/- ## Helper lemmas for the Tab to Session resolution -/

/-- Links of one tab contribute their sessions exactly when both enclosing
identifiers match. -/
theorem filterLinks_eq (windowID tabID wWin wTab : String) (links : List SessLink) :
    ((links.map (fun l => SessEntry.mk wWin wTab l.sessionId)).filter
       (fun e => e.win == windowID && e.tb == tabID)).map (fun e => e.sid) =
    if wWin == windowID && wTab == tabID then linksSessions links else [] := by
  induction links with
  | nil =>
    simp only [List.map_nil, List.filter_nil, linksSessions]
    split <;> rfl
  | cons l rest ih =>
    by_cases h : (wWin == windowID && wTab == tabID) = true <;>
      simp [List.filter_cons, h, ih, linksSessions]

/-- Tabs of one window contribute their matching tabs' sessions exactly when
the enclosing window identifier matches. -/
theorem filterTabs_eq (windowID tabID wWin : String) (tabs : List TabData) :
    ((tabs.flatMap (fun t =>
        t.links.map (fun l => SessEntry.mk wWin t.tabId l.sessionId))).filter
       (fun e => e.win == windowID && e.tb == tabID)).map (fun e => e.sid) =
    if wWin == windowID then tabsSessions tabID tabs else [] := by
  induction tabs with
  | nil =>
    simp only [List.flatMap_nil, List.filter_nil, tabsSessions]
    split <;> rfl
  | cons t rest ih =>
    simp only [List.flatMap_cons, List.filter_append, List.map_append, ih, filterLinks_eq]
    by_cases h1 : (wWin == windowID) = true <;>
      by_cases h2 : (t.tabId == tabID) = true <;>
        simp [h1, h2, tabsSessions]

/-- C4: for every tab (parent window id, own id) and every bulk
session-listing response, the filtering walk of Tab.ListSessions returns
exactly the sessions whose enclosing window identifier equals the tab's
parent window identifier and whose enclosing tab identifier equals the tab's
own identifier, flattened in the server's traversal order — equal to the
specification-side filter of the annotated flattened listing. -/
theorem tabListSessions_eq_spec (windowID tabID : String) (ws : List WindowData) :
    tabListSessions windowID tabID ws = specTabSessions windowID tabID ws := by
  induction ws with
  | nil => rfl
  | cons w rest ih =>
    simp only [specTabSessions, allSessionEntries] at ih ⊢
    simp only [List.flatMap_cons, List.filter_append, List.map_append, filterTabs_eq, ← ih]
    rfl

/- ## Theorems for claims C5, C6, C7 -/

/-- Channel normalization stays inside the unit interval for channels in
0..255. -/
theorem chan_mem_unit (c : Nat) (hc : c ≤ 255) : 0 ≤ chan c ∧ chan c ≤ 1 := by
  constructor
  · exact div_nonneg (Nat.cast_nonneg c) (by norm_num)
  · rw [chan, div_le_one (by norm_num : (0:ℚ) < 255)]
    exact_mod_cast hc

/-- A fixed one-window, one-tab, one-session listing used by concrete
witnesses. -/
def wsOne : List WindowData := [⟨"w1", [⟨"t1", [⟨"s1"⟩]⟩]⟩]

/-- C5: for every tab whose resolved session list is non-empty and every
r, g, b in 0..255, SetColor issues exactly one color-assignment request,
targeted at exactly the first resolved session, carrying exactly two
assignments — the structured color whose channels are r/255, g/255, b/255
(each in the unit interval) and the use-custom-color flag "true". -/
theorem tabSetColor_request (windowID tabID : String) (r g b : Nat)
    (ws : List WindowData) (presp : Except String ProfileStatus)
    (s0 : String) (rest : List String)
    (hs : tabListSessions windowID tabID ws = s0 :: rest)
    (hr : r ≤ 255) (hg : g ≤ 255) (hb : b ≤ 255) :
    (tabSetColor windowID tabID r g b ⟨.ok ws, presp⟩).sent =
      [⟨s0, [⟨"Tab Color", .colorVal (chan r) (chan g) (chan b)⟩,
             ⟨"Use Tab Color", .strVal "true"⟩]⟩] ∧
    chan r = (r : ℚ) / 255 ∧ chan g = (g : ℚ) / 255 ∧ chan b = (b : ℚ) / 255 ∧
    (0 ≤ chan r ∧ chan r ≤ 1) ∧ (0 ≤ chan g ∧ chan g ≤ 1) ∧ (0 ≤ chan b ∧ chan b ≤ 1) := by
  refine ⟨?_, rfl, rfl, rfl, chan_mem_unit r hr, chan_mem_unit g hg, chan_mem_unit b hb⟩
  cases presp <;> simp [tabSetColor, tabListSessionsCall, hs]

/-- Witness for C5 at a one-session listing and the channels 100, 149, 237. -/
theorem tabSetColor_request_witness :
    (tabSetColor "w1" "t1" 100 149 237 ⟨.ok wsOne, .ok .statusOK⟩).sent =
      [⟨"s1", [⟨"Tab Color", .colorVal (chan 100) (chan 149) (chan 237)⟩,
               ⟨"Use Tab Color", .strVal "true"⟩]⟩] ∧
    chan 100 = ((100 : Nat) : ℚ) / 255 ∧ chan 149 = ((149 : Nat) : ℚ) / 255 ∧
    chan 237 = ((237 : Nat) : ℚ) / 255 ∧
    (0 ≤ chan 100 ∧ chan 100 ≤ 1) ∧ (0 ≤ chan 149 ∧ chan 149 ≤ 1) ∧
    (0 ≤ chan 237 ∧ chan 237 ≤ 1) :=
  tabSetColor_request "w1" "t1" 100 149 237 wsOne (.ok .statusOK) "s1" []
    (by decide) (by norm_num) (by norm_num) (by norm_num)

/-- C6 counterexample: with a well-formed one-session listing, a
color-assignment response carrying a non-OK status still makes SetColor
return success — the code never inspects the response status, so a non-OK
status does not cause a failure. -/
theorem tabSetColor_status_counterexample :
    (tabSetColor "w1" "t1" 100 100 100 ⟨.ok wsOne, .ok .statusErr⟩).result =
      .ok () := by
  rfl

/-- C6 amended: SetColor's result does not depend on the color-assignment
response status; whenever the transport exchange itself succeeds (and the
session list is non-empty), SetColor returns success for every response
status, OK or not. -/
theorem tabSetColor_ignoresStatus (windowID tabID : String) (r g b : Nat)
    (ws : List WindowData) (st : ProfileStatus)
    (s0 : String) (rest : List String)
    (hs : tabListSessions windowID tabID ws = s0 :: rest) :
    (tabSetColor windowID tabID r g b ⟨.ok ws, .ok st⟩).result = .ok () := by
  simp [tabSetColor, tabListSessionsCall, hs]

/-- Witness for amended C6 at a non-OK response status. -/
theorem tabSetColor_ignoresStatus_witness :
    (tabSetColor "w1" "t1" 10 20 30 ⟨.ok wsOne, .ok .statusErr⟩).result = .ok () :=
  tabSetColor_ignoresStatus "w1" "t1" 10 20 30 wsOne .statusErr "s1" [] (by decide)

/-- Substring occurrence is preserved by prepending characters. -/
theorem hasSub_append_right (pat ys : List Char) (h : hasSub pat ys = true) :
    ∀ xs, hasSub pat (xs ++ ys) = true := by
  intro xs
  induction xs with
  | nil => simpa using h
  | cons c rest ih => simp [hasSub, ih]

/-- C7: for every tab whose resolved session list is empty, ListSessions
returns an empty sequence with no error, and SetColor fails with a message
containing "no sessions" while issuing no color-assignment request. -/
theorem tab_empty_behaviour (windowID tabID : String) (r g b : Nat)
    (ws : List WindowData) (presp : Except String ProfileStatus)
    (hs : tabListSessions windowID tabID ws = []) :
    tabListSessionsCall windowID tabID (.ok ws) = .ok [] ∧
    (tabSetColor windowID tabID r g b ⟨.ok ws, presp⟩).sent = [] ∧
    (tabSetColor windowID tabID r g b ⟨.ok ws, presp⟩).result =
      .error ("tab \"" ++ tabID ++ "\" has no sessions") ∧
    contSub ("tab \"" ++ tabID ++ "\" has no sessions") "no sessions" = true := by
  refine ⟨by simp [tabListSessionsCall, hs], ?_, ?_, ?_⟩
  · simp [tabSetColor, tabListSessionsCall, hs]
  · simp [tabSetColor, tabListSessionsCall, hs]
  · obtain ⟨l⟩ := tabID
    exact hasSub_append_right _ _ (by decide) _

/-- Witness for C7 at a listing whose only matching tab has no links. -/
theorem tab_empty_behaviour_witness :
    tabListSessionsCall "w1" "t1" (.ok [⟨"w1", [⟨"t1", []⟩]⟩]) = .ok [] ∧
    (tabSetColor "w1" "t1" 100 100 100 ⟨.ok [⟨"w1", [⟨"t1", []⟩]⟩], .ok .statusOK⟩).sent = [] ∧
    (tabSetColor "w1" "t1" 100 100 100 ⟨.ok [⟨"w1", [⟨"t1", []⟩]⟩], .ok .statusOK⟩).result =
      .error ("tab \"" ++ "t1" ++ "\" has no sessions") ∧
    contSub ("tab \"" ++ "t1" ++ "\" has no sessions") "no sessions" = true :=
  tab_empty_behaviour "w1" "t1" 100 100 100 [⟨"w1", [⟨"t1", []⟩]⟩] (.ok .statusOK) (by decide)

/- ## Theorems for claims C8, C10 -/

/-- C8: Tab.Close issues one close request naming the tab's identifier with
the force flag false; a response whose first status for it is OK succeeds,
and a first status of NOT_FOUND or USER_DECLINED fails with a message naming
the offending status. -/
theorem tabClose_statusHandling (tabID : String) (rest : List CloseStatus) :
    tabCloseRequest tabID = ⟨[tabID], false⟩ ∧
    tabClose tabID (.ok (.okStatus :: rest)) = .ok () ∧
    tabClose tabID (.ok (.notFound :: rest)) =
      .error ("failed to close tab \"" ++ tabID ++ "\": status " ++ "NOT_FOUND") ∧
    contSub ("failed to close tab \"" ++ tabID ++ "\": status " ++ "NOT_FOUND")
      "NOT_FOUND" = true ∧
    tabClose tabID (.ok (.userDeclined :: rest)) =
      .error ("failed to close tab \"" ++ tabID ++ "\": status " ++ "USER_DECLINED") ∧
    contSub ("failed to close tab \"" ++ tabID ++ "\": status " ++ "USER_DECLINED")
      "USER_DECLINED" = true := by
  refine ⟨rfl, rfl, rfl, ?_, rfl, ?_⟩ <;>
    · obtain ⟨l⟩ := tabID
      exact hasSub_append_right _ _ (by decide) _

/-- C10: a close response whose statuses list is empty yields success, and
only the first entry of a non-empty statuses list is inspected — entries
beyond the first never change the outcome. -/
theorem tabClose_emptyAndFirstOnly (tabID : String) (s : CloseStatus)
    (rest : List CloseStatus) :
    tabClose tabID (.ok []) = .ok () ∧
    tabClose tabID (.ok (s :: rest)) = tabClose tabID (.ok [s]) := by
  exact ⟨rfl, by cases s <;> rfl⟩

/- ## ReadinessWaiter (WaitForITerm2) -/

/-- Outcome of WaitForITerm2 in discrete time (milliseconds): success or
timeout, each tagged with the elapsed time; `fuelOut` is unreachable for the
fuel chosen below and only makes the recursion structural. -/
inductive WaitResult
  | success (elapsedMs : Nat)
  | timedOut (elapsedMs : Nat)
  | fuelOut
deriving DecidableEq, Repr

/-- Polling loop of WaitForITerm2: the k-th ticker firing happens at
elapsed time 500*k ms; the deadline is checked strictly (time.Now().After)
before the liveness probe of that iteration. `running j` is what
isITerm2Running reports at the j-th probe (j = 0 is the immediate check). -/
def waitLoop (running : Nat → Bool) (timeoutMs : Nat) : Nat → Nat → WaitResult
  | 0, _ => .fuelOut
  | fuel + 1, k =>
    let now := 500 * k
    if timeoutMs < now then .timedOut now
    else if running k then .success now
    else waitLoop running timeoutMs fuel (k + 1)

/-- Model of WaitForITerm2 (part_002 lines 43-65): check liveness
immediately; on failure poll every 500 ms until liveness or until the
deadline (computed from the timeout at call start) has passed. -/
def waitForITerm2 (running : Nat → Bool) (timeoutMs : Nat) : WaitResult :=
  if running 0 then .success 0
  else waitLoop running timeoutMs (timeoutMs / 500 + 2) 1

/-- When liveness never holds before the deadline, the loop ends with a
timeout at the first ticker firing past the deadline. -/
theorem waitLoop_timedOut (running : Nat → Bool) (timeoutMs : Nat) :
    ∀ fuel k, (∀ j, 500 * j ≤ timeoutMs → running j = false) →
      k ≤ timeoutMs / 500 + 1 → timeoutMs / 500 + 2 ≤ k + fuel →
      waitLoop running timeoutMs fuel k =
        .timedOut (500 * (timeoutMs / 500 + 1)) := by
  intro fuel
  induction fuel with
  | zero =>
    intro k _ hk hf
    omega
  | succ fuel ih =>
    intro k h hk hf
    have hdm : 500 * (timeoutMs / 500) + timeoutMs % 500 = timeoutMs :=
      Nat.div_add_mod timeoutMs 500
    have hmod : timeoutMs % 500 < 500 := Nat.mod_lt _ (by norm_num)
    by_cases hlt : timeoutMs < 500 * k
    · have hkq : k = timeoutMs / 500 + 1 := by omega
      subst hkq
      simp [waitLoop, hlt]
    · have hrun : running k = false := h k (by omega)
      have hgoal := ih (k + 1) h (by omega) (by omega)
      simp [waitLoop, hlt, hrun, hgoal]

/-- C9: WaitForITerm2 probes liveness once immediately and returns success
with zero elapsed delay when the application is already running; when
liveness never holds at any probe before the deadline, the polling loop
terminates with a timeout failure at the first ticker firing strictly past
the deadline — the deadline is checked before each subsequent probe, so
probes at or past the deadline are never consulted. -/
theorem waitForITerm2_behaviour (running : Nat → Bool) (timeoutMs : Nat) :
    (running 0 = true → waitForITerm2 running timeoutMs = .success 0) ∧
    ((∀ j, 500 * j ≤ timeoutMs → running j = false) →
      waitForITerm2 running timeoutMs =
        .timedOut (500 * (timeoutMs / 500 + 1))) := by
  constructor
  · intro h
    simp [waitForITerm2, h]
  · intro h
    have h0 : running 0 = false := h 0 (by omega)
    rw [waitForITerm2, if_neg (by simp [h0])]
    exact waitLoop_timedOut running timeoutMs (timeoutMs / 500 + 2) 1 h (by omega) (by omega)

/-- Witness for C9: an always-running application succeeds immediately with
no delay; with a 100 ms timeout and the application never starting, the
wait ends in a timeout at the first ticker firing (500 ms, strictly past the
100 ms deadline). -/
theorem waitForITerm2_behaviour_witness :
    waitForITerm2 (fun _ => true) 100 = .success 0 ∧
    waitForITerm2 (fun _ => false) 100 = .timedOut 500 :=
  ⟨(waitForITerm2_behaviour (fun _ => true) 100).1 rfl,
   (waitForITerm2_behaviour (fun _ => false) 100).2 (fun _ _ => rfl)⟩
